import Mathlib

/-!
Shallow embedding of `src/husimi_q.py` (`plot_qfunc`), a plotting wrapper
that evaluates the Husimi Q-function of a quantum state on a symmetric grid
and draws it as a 2D contour plot or a 3D surface plot.

Modelling choices:
* The quantum-toolkit collaborators (`isket`, `ket2dm`, `qfunc`) are
  abstract parameters bundled in `Env`; the state type `S` is abstract.
* Real numbers (grid coordinates, Q-function values) are modelled as `ℚ`.
* The matplotlib side effects are modelled as a trace of `REvent`s emitted
  in program order; a run returns the trace emitted before completion or
  before the raised error, together with an `Except` result.
* Python `None`-ness of the `fig`/`ax` arguments is modelled with `Option`
  (matplotlib figures and axes are truthy, so `not fig` means `fig is None`).
* Object identity (`xvec is not yvec` on line 82) is modelled by
  provenance: `yvec` is the same object as `xvec` exactly when the
  evaluator did NOT return a `(array, y-grid)` tuple; an alternate grid
  returned inside a tuple is a freshly constructed array, hence a distinct
  object even when its values equal those of `xvec`.
-/

namespace HusimiQ

/-- A 2D array of Q-function values (`numpy` 2D array of reals). -/
abbrev Arr2 := List (List ℚ)

/-- Result of the external Q-function evaluator `qfunc(rho, xvec, yvec)`
(line 63): either a single 2D array, or a `(2D array, alternate y-grid)`
tuple. -/
inductive QRes where
  | single (q : Arr2)
  | withGrid (q : Arr2) (y : List ℚ)
deriving DecidableEq, Repr

/-- The external quantum-toolkit collaborators used by `plot_qfunc`:
`isket` (line 59), `ket2dm` (line 60) and `qfunc` (line 63). -/
structure Env (S : Type) where
  isket : S → Bool
  ket2dm : S → S
  qfunc : S → List ℚ → List ℚ → QRes

/-- A figure (canvas) handle: either supplied by the caller (with an
identity token) or created inside the call with the given figsize. -/
inductive FigH where
  | supplied (id : ℕ)
  | created (figsize : ℚ × ℚ)
deriving DecidableEq, Repr

/-- An axes handle: either supplied by the caller (with an identity token),
or created inside the call — a plain 2D axes (line 52) or a 3D-projected
axes (line 55). -/
inductive AxH where
  | supplied (id : ℕ)
  | created2d (figsize : ℚ × ℚ)
  | created3d (figsize : ℚ × ℚ)
deriving DecidableEq, Repr

/-- Where an `InvalidArgument` (Python `ValueError`) was raised: the
canvas-creation check (line 57) or the draw-time check (line 80). -/
inductive CheckSite where
  | creation
  | draw
deriving DecidableEq, Repr

/-- Where a `None` handle was first used, raising an `AttributeError`:
the draw call on a missing axes (lines 73/77) or the colorbar call on a
missing figure (line 89). -/
inductive UseSite where
  | drawCall
  | colorbarCall
deriving DecidableEq, Repr

/-- The errors `plot_qfunc` can raise. -/
inductive PlotError where
  | invalidProjection (site : CheckSite)
  | attributeErrorNone (site : UseSite)
deriving DecidableEq, Repr

/-- Rendering side effects, in program order.  `contourf` records the
grid, data, level count, color normalization bounds and color map of the
filled contour draw (lines 73-74); `plotSurface` records the meshgrid
generators (both `xvec`, line 76), the raw third argument `Q0` as passed
(line 77 — note: the raw evaluator result, not the unpacked array), the
strides, line width and normalization (lines 77-78).  The axis labels
(lines 85-86) are `Re(alpha)` / `Im(alpha)` TeX strings, recorded as bare
tags. -/
inductive REvent where
  | createFig (figsize : ℚ × ℚ)
  | createAx2d
  | createAx3d
  | contourf (x y : List ℚ) (z : Arr2) (levels : ℕ) (normLo normHi : ℚ) (cmap : String)
  | plotSurface (x y : List ℚ) (z : QRes) (rstride cstride : ℕ) (lw : ℚ)
      (normLo normHi : ℚ) (cmap : String)
  | setYlim (lo hi : ℚ)
  | setXlabel
  | setYlabel
  | colorbar (normLo normHi : ℚ)
  | setTitle (t : String)
deriving DecidableEq, Repr

/-- The arguments of `plot_qfunc` (lines 4-5), with the source defaults. -/
structure Args (S : Type) where
  rho : S
  fig : Option FigH := none
  ax : Option AxH := none
  figsize : ℚ × ℚ := (6, 6)
  cmap : Option String := none
  alpha_max : ℚ := 15 / 2
  colorbar : Bool := false
  projection : String := "2d"

/-- `np.linspace(lo, hi, n)`: `n` evenly spaced points from `lo` to `hi`
inclusive, point `i` being `lo + (hi - lo) * i / (n - 1)`. -/
def linspace (lo hi : ℚ) (n : ℕ) : List ℚ :=
  (List.range n).map fun i : ℕ => lo + (hi - lo) * (i : ℚ) / ((n : ℚ) - 1)

/-- Line 62: `xvec = np.linspace(-alpha_max, alpha_max, 200)`. -/
def xvecOf (amax : ℚ) : List ℚ :=
  linspace (-amax) amax 200

/-- Lines 59-60: replace a ket by its density matrix, `rho = ket2dm(rho)`. -/
def normState {S : Type} (env : Env S) (rho : S) : S :=
  if env.isket rho then env.ket2dm rho else rho

/-- Line 63: `Q0 = qfunc(rho, xvec, xvec)` — the raw evaluator result. -/
def q0Of {S : Type} (env : Env S) (a : Args S) : QRes :=
  env.qfunc (normState env a.rho) (xvecOf a.alpha_max) (xvecOf a.alpha_max)

/-- Line 65 (first component): `Q, yvec = Q0 if type(Q0) is tuple else (Q0, xvec)`. -/
def computedQ {S : Type} (env : Env S) (a : Args S) : Arr2 :=
  match q0Of env a with
  | QRes.withGrid q _ => q
  | QRes.single q => q

/-- Line 65 (second component): the y-grid — the tuple's alternate grid,
or `xvec` itself when the evaluator returned a single array. -/
def yvecOf {S : Type} (env : Env S) (a : Args S) : List ℚ :=
  match q0Of env a with
  | QRes.withGrid _ y => y
  | QRes.single _ => xvecOf a.alpha_max

/-- `abs(Q).max()` (line 67) over a 2D array.  `numpy` raises on an empty
array; the grid here always has 200×200 entries, so the `0` base of the
fold is never the answer on real inputs. -/
def absMax (q : Arr2) : ℚ :=
  q.foldl (fun m row => row.foldl (fun m2 v => max m2 |v|) m) 0

/-- Line 67: `qlim = abs(Q).max()` — the symmetric color-scale bound. -/
def qlimOf {S : Type} (env : Env S) (a : Args S) : ℚ :=
  absMax (computedQ env a)

/-- `xvec.min()` (line 83).  `numpy` raises on an empty array; the grid is
never empty. -/
def listMin (xs : List ℚ) : ℚ :=
  match xs with
  | [] => 0
  | h :: t => t.foldl min h

/-- `xvec.max()` (line 83). -/
def listMax (xs : List ℚ) : ℚ :=
  match xs with
  | [] => 0
  | h :: t => t.foldl max h

/-- The whole of `plot_qfunc` (lines 50-93), as a pure function from the
collaborators and arguments to the trace of rendering events emitted (in
order, up to the point of completion or error) and the outcome: the
returned `(fig, ax)` pair on success, or the raised error. -/
def run {S : Type} (env : Env S) (a : Args S) :
    List REvent × Except PlotError (Option FigH × Option AxH) :=
  -- lines 50-57: `if not fig and not ax:` — canvas creation, guarded by
  -- the first projection check; skipped when either handle is supplied.
  match
    (if a.fig.isNone && a.ax.isNone then
       if a.projection = "2d" then
         Except.ok (some (FigH.created a.figsize), some (AxH.created2d a.figsize),
           [REvent.createFig a.figsize, REvent.createAx2d])
       else if a.projection = "3d" then
         Except.ok (some (FigH.created a.figsize), some (AxH.created3d a.figsize),
           [REvent.createFig a.figsize, REvent.createAx3d])
       else Except.error (PlotError.invalidProjection CheckSite.creation)
     else Except.ok (a.fig, a.ax, []) :
     Except PlotError (Option FigH × Option AxH × List REvent))
  with
  | Except.error e => ([], Except.error e)
  | Except.ok (fig, ax, ev0) =>
    -- lines 59-67, 69-70: normalize the state, build the grid, evaluate,
    -- unpack, compute the bound, default the color map.
    let xvec := xvecOf a.alpha_max
    let Q0 := q0Of env a
    let Q := computedQ env a
    let yvec := yvecOf env a
    let qlim := qlimOf env a
    let cmap := a.cmap.getD "RdBu"
    -- lines 72-80: draw, guarded by the second projection check.  For a
    -- valid projection the attribute access `ax.contourf` / `ax.plot_surface`
    -- on a `None` axes raises before anything is drawn; note that on
    -- line 77 the raw `Q0` is passed to `plot_surface`, not the unpacked `Q`.
    match
      (if a.projection = "2d" then
         match ax with
         | none => Except.error (PlotError.attributeErrorNone UseSite.drawCall)
         | some _ =>
           Except.ok [REvent.contourf xvec yvec Q 100 (-qlim) qlim cmap]
       else if a.projection = "3d" then
         match ax with
         | none => Except.error (PlotError.attributeErrorNone UseSite.drawCall)
         | some _ =>
           Except.ok [REvent.plotSurface xvec xvec Q0 5 5 (1 / 2) (-qlim) qlim cmap]
       else Except.error (PlotError.invalidProjection CheckSite.draw) :
       Except PlotError (List REvent))
    with
    | Except.error e => (ev0, Except.error e)
    | Except.ok evD =>
      -- lines 82-83: `if xvec is not yvec` — OBJECT identity: true exactly
      -- when the evaluator returned a tuple (its alternate grid is a
      -- freshly constructed object), regardless of the grid's values.
      let evY :=
        match Q0 with
        | QRes.withGrid _ _ => [REvent.setYlim (listMin xvec) (listMax xvec)]
        | QRes.single _ => []
      -- lines 85-86: axis labels.
      let evL := [REvent.setXlabel, REvent.setYlabel]
      -- lines 88-89: `fig.colorbar(cf, ax=ax)` — the legend is bound to the
      -- draw artifact `cf`, whose normalization is `Normalize(-qlim, qlim)`;
      -- the attribute access on a `None` figure raises.
      match
        (if a.colorbar then
           match fig with
           | none => Except.error (PlotError.attributeErrorNone UseSite.colorbarCall)
           | some _ => Except.ok [REvent.colorbar (-qlim) qlim]
         else Except.ok [] :
         Except PlotError (List REvent))
      with
      | Except.error e => (ev0 ++ evD ++ evY ++ evL, Except.error e)
      | Except.ok evC =>
        -- line 91: title; line 93: `return fig, ax`.
        (ev0 ++ evD ++ evY ++ evL ++ evC ++ [REvent.setTitle "Husimi Q-function"],
         Except.ok (fig, ax))

/-- The y-limit events emitted by lines 82-83: one `setYlim` to the x-grid's
min/max exactly when the evaluator returned a tuple (so that `yvec` is a
distinct object from `xvec`), none otherwise. -/
def ylimEvents {S : Type} (env : Env S) (a : Args S) : List REvent :=
  match q0Of env a with
  | QRes.withGrid _ _ =>
      [REvent.setYlim (listMin (xvecOf a.alpha_max)) (listMax (xvecOf a.alpha_max))]
  | QRes.single _ => []

/-- The colorbar events emitted by lines 88-89 when the figure handle is
present: one `colorbar` carrying the draw artifact's normalization if
requested, none otherwise. -/
def cbarEvents {S : Type} (env : Env S) (a : Args S) : List REvent :=
  if a.colorbar then [REvent.colorbar (-qlimOf env a) (qlimOf env a)] else []

/-- Is the event the creation of a canvas or axes (not a drawn artifact)? -/
def isCreation : REvent → Bool
  | REvent.createFig _ => true
  | REvent.createAx2d => true
  | REvent.createAx3d => true
  | _ => false

/-- Is the event a drawn artifact (contour, surface, labels, title,
colorbar, axis-limit change) added to the axes/figure? -/
def drawnArtifact (e : REvent) : Bool :=
  !(isCreation e)

/-- Is the event a y-axis limit change (line 83)? -/
def isSetYlim : REvent → Bool
  | REvent.setYlim _ _ => true
  | _ => false

/-- The color-normalization bounds carried by an event, when it has any. -/
def normOf : REvent → Option (ℚ × ℚ)
  | REvent.contourf _ _ _ _ lo hi _ => some (lo, hi)
  | REvent.plotSurface _ _ _ _ _ _ lo hi _ => some (lo, hi)
  | REvent.colorbar lo hi => some (lo, hi)
  | _ => none

/-- The `(y-grid, data)` pair of a filled-contour draw event. -/
def contourArgsOf : REvent → Option (List ℚ × Arr2)
  | REvent.contourf _ y z _ _ _ _ => some (y, z)
  | _ => none

/-- The raw data argument of a surface draw event. -/
def surfDataOf : REvent → Option QRes
  | REvent.plotSurface _ _ z _ _ _ _ _ _ => some z
  | _ => none

/-- The color-normalization bounds of a DRAW event only (contour or
surface), ignoring the colorbar legend. -/
def drawNormOf : REvent → Option (ℚ × ℚ)
  | REvent.contourf _ _ _ _ lo hi _ => some (lo, hi)
  | REvent.plotSurface _ _ _ _ _ _ lo hi _ => some (lo, hi)
  | _ => none

/-! ### Concrete collaborator environments and argument records, used to
exercise the theorems on closed inputs. -/

/-- A trivial collaborator environment over a unit state type: nothing is
a ket, and the evaluator returns the single array `[[0]]`. -/
def env0 : Env Unit :=
  ⟨fun _ => false, fun s => s, fun _ _ _ => QRes.single [[0]]⟩

/-- An environment whose evaluator returns a `(array, alternate y-grid)`
tuple with grid `[2]`. -/
def envT : Env Unit :=
  ⟨fun _ => false, fun s => s, fun _ _ _ => QRes.withGrid [[1]] [2]⟩

/-- An environment whose evaluator returns the `(array, alternate y-grid)`
tuple `([[1]], [0])`. -/
def envC3 : Env Unit :=
  ⟨fun _ => false, fun s => s, fun _ _ _ => QRes.withGrid [[1]] [0]⟩

/-- An environment whose evaluator returns a tuple whose alternate y-grid
is VALUE-equal to the default x-grid, but (being freshly constructed by
the evaluator) a distinct object from it. -/
def env8 : Env Unit :=
  ⟨fun _ => false, fun s => s, fun _ _ _ => QRes.withGrid [[1]] (xvecOf (15 / 2))⟩

/-- A call with all defaults (fresh handles, `"2d"`). -/
def args0 : Args Unit := { rho := () }

/-- A call with all defaults and `"3d"` projection. -/
def args3d : Args Unit := { rho := (), projection := "3d" }

/-- A call with an invalid projection and no handles supplied. -/
def argsBadFresh : Args Unit := { rho := (), projection := "1d" }

/-- A call with an invalid projection and both handles supplied. -/
def argsBadBoth : Args Unit :=
  { rho := (), fig := some (FigH.supplied 0), ax := some (AxH.supplied 1),
    projection := "1d" }

/-- A call with an invalid (empty-string) projection and no handles. -/
def argsBadEmpty : Args Unit := { rho := (), projection := "" }

/-- A call with both handles supplied and otherwise defaults. -/
def argsBoth : Args Unit :=
  { rho := (), fig := some (FigH.supplied 0), ax := some (AxH.supplied 1) }

/-- A call supplying only the figure handle (axes omitted). -/
def argsFigOnly : Args Unit := { rho := (), fig := some (FigH.supplied 0) }

/-- A call supplying only the axes handle, with the colorbar requested. -/
def argsAxOnly : Args Unit :=
  { rho := (), ax := some (AxH.supplied 1), colorbar := true }

/-- A second all-defaults call varied in the evaluation-irrelevant options
(figsize, color map, colorbar). -/
def args9 : Args Unit :=
  { rho := (), figsize := (3, 4), cmap := some "viridis", colorbar := true }

/-- A `"3d"` call varied in the evaluation-irrelevant options. -/
def args9d : Args Unit :=
  { rho := (), figsize := (3, 4), cmap := some "viridis", colorbar := true,
    projection := "3d" }

/-! ### Characterization lemmas -/

/-- With no handles supplied and an invalid projection, the call fails at
the canvas-creation check (line 57) with an empty trace. -/
lemma run_invalid_fresh {S : Type} (env : Env S) (a : Args S)
    (hf : a.fig = none) (ha : a.ax = none)
    (h2 : a.projection ≠ "2d") (h3 : a.projection ≠ "3d") :
    run env a = ([], Except.error (PlotError.invalidProjection CheckSite.creation)) := by
  unfold run
  simp [hf, ha, h2, h3]

/-- With at least one handle supplied (so the creation branch is skipped)
and an invalid projection, the call fails at the draw-time check (line 80)
with an empty trace. -/
lemma run_invalid_supplied {S : Type} (env : Env S) (a : Args S)
    (hfa : (a.fig.isNone && a.ax.isNone) = false)
    (h2 : a.projection ≠ "2d") (h3 : a.projection ≠ "3d") :
    run env a = ([], Except.error (PlotError.invalidProjection CheckSite.draw)) := by
  unfold run
  simp [hfa, h2, h3]

/-- Full characterization of a fresh (no handles supplied) 2D run: it
always succeeds, creating the canvas and a plain 2D axes and emitting the
contour draw, optional y-limit fix, labels, optional colorbar, and title. -/
lemma run_2d_fresh {S : Type} (env : Env S) (a : Args S)
    (hf : a.fig = none) (ha : a.ax = none) (hp : a.projection = "2d") :
    run env a =
      (REvent.createFig a.figsize :: REvent.createAx2d ::
         REvent.contourf (xvecOf a.alpha_max) (yvecOf env a) (computedQ env a) 100
           (-qlimOf env a) (qlimOf env a) (a.cmap.getD "RdBu") ::
         (ylimEvents env a ++ REvent.setXlabel :: REvent.setYlabel ::
           (cbarEvents env a ++ [REvent.setTitle "Husimi Q-function"])),
       Except.ok (some (FigH.created a.figsize), some (AxH.created2d a.figsize))) := by
  unfold run
  cases hcb : a.colorbar <;> simp [hf, ha, hp, hcb, ylimEvents, cbarEvents]

/-- Full characterization of a fresh 3D run: it always succeeds, creating
the canvas and a 3D-projected axes, and the surface draw receives the RAW
evaluator result `Q0` (line 77) — not the unpacked array — with strides 5,
line width 1/2, and the `[-qlim, qlim]` normalization computed from the
unpacked array. -/
lemma run_3d_fresh {S : Type} (env : Env S) (a : Args S)
    (hf : a.fig = none) (ha : a.ax = none) (hp : a.projection = "3d") :
    run env a =
      (REvent.createFig a.figsize :: REvent.createAx3d ::
         REvent.plotSurface (xvecOf a.alpha_max) (xvecOf a.alpha_max) (q0Of env a) 5 5
           (1 / 2) (-qlimOf env a) (qlimOf env a) (a.cmap.getD "RdBu") ::
         (ylimEvents env a ++ REvent.setXlabel :: REvent.setYlabel ::
           (cbarEvents env a ++ [REvent.setTitle "Husimi Q-function"])),
       Except.ok (some (FigH.created a.figsize), some (AxH.created3d a.figsize))) := by
  unfold run
  cases hcb : a.colorbar <;> simp [hf, ha, hp, hcb, ylimEvents, cbarEvents]

/-- Full characterization of a 2D run with both handles supplied: no
creation events, and the supplied handles are returned unchanged. -/
lemma run_2d_supplied {S : Type} (env : Env S) (a : Args S) (f : FigH) (x : AxH)
    (hf : a.fig = some f) (ha : a.ax = some x) (hp : a.projection = "2d") :
    run env a =
      (REvent.contourf (xvecOf a.alpha_max) (yvecOf env a) (computedQ env a) 100
           (-qlimOf env a) (qlimOf env a) (a.cmap.getD "RdBu") ::
         (ylimEvents env a ++ REvent.setXlabel :: REvent.setYlabel ::
           (cbarEvents env a ++ [REvent.setTitle "Husimi Q-function"])),
       Except.ok (some f, some x)) := by
  unfold run
  cases hcb : a.colorbar <;> simp [hf, ha, hp, hcb, ylimEvents, cbarEvents]

/-- Full characterization of a 3D run with both handles supplied. -/
lemma run_3d_supplied {S : Type} (env : Env S) (a : Args S) (f : FigH) (x : AxH)
    (hf : a.fig = some f) (ha : a.ax = some x) (hp : a.projection = "3d") :
    run env a =
      (REvent.plotSurface (xvecOf a.alpha_max) (xvecOf a.alpha_max) (q0Of env a) 5 5
           (1 / 2) (-qlimOf env a) (qlimOf env a) (a.cmap.getD "RdBu") ::
         (ylimEvents env a ++ REvent.setXlabel :: REvent.setYlabel ::
           (cbarEvents env a ++ [REvent.setTitle "Husimi Q-function"])),
       Except.ok (some f, some x)) := by
  unfold run
  cases hcb : a.colorbar <;> simp [hf, ha, hp, hcb, ylimEvents, cbarEvents]

/-- A 2D run with the figure missing, the axes supplied and no colorbar
requested succeeds: the missing figure is never used, and `None` is
returned in its place. -/
lemma run_2d_nofig {S : Type} (env : Env S) (a : Args S) (x : AxH)
    (hf : a.fig = none) (ha : a.ax = some x) (hp : a.projection = "2d")
    (hcb : a.colorbar = false) :
    run env a =
      (REvent.contourf (xvecOf a.alpha_max) (yvecOf env a) (computedQ env a) 100
           (-qlimOf env a) (qlimOf env a) (a.cmap.getD "RdBu") ::
         (ylimEvents env a ++ REvent.setXlabel :: REvent.setYlabel ::
           (cbarEvents env a ++ [REvent.setTitle "Husimi Q-function"])),
       Except.ok (none, some x)) := by
  unfold run
  simp [hf, ha, hp, hcb, ylimEvents, cbarEvents]

/-- A 3D run with the figure missing, the axes supplied and no colorbar
requested succeeds likewise. -/
lemma run_3d_nofig {S : Type} (env : Env S) (a : Args S) (x : AxH)
    (hf : a.fig = none) (ha : a.ax = some x) (hp : a.projection = "3d")
    (hcb : a.colorbar = false) :
    run env a =
      (REvent.plotSurface (xvecOf a.alpha_max) (xvecOf a.alpha_max) (q0Of env a) 5 5
           (1 / 2) (-qlimOf env a) (qlimOf env a) (a.cmap.getD "RdBu") ::
         (ylimEvents env a ++ REvent.setXlabel :: REvent.setYlabel ::
           (cbarEvents env a ++ [REvent.setTitle "Husimi Q-function"])),
       Except.ok (none, some x)) := by
  unfold run
  simp [hf, ha, hp, hcb, ylimEvents, cbarEvents]

/-- With the axes handle missing but the figure supplied (creation branch
skipped) and a valid projection, the call fails at the draw call on the
`None` axes, with an empty trace: nothing was created and nothing drawn. -/
lemma run_missing_ax {S : Type} (env : Env S) (a : Args S) (f : FigH)
    (hf : a.fig = some f) (ha : a.ax = none)
    (hp : a.projection = "2d" ∨ a.projection = "3d") :
    run env a = ([], Except.error (PlotError.attributeErrorNone UseSite.drawCall)) := by
  unfold run
  rcases hp with hp | hp <;> simp [hf, ha, hp]

/-- With the figure handle missing but the axes supplied (creation branch
skipped), a valid projection and the colorbar requested, the draw and the
labels happen on the supplied axes, and the call then fails at the
colorbar-attachment call on the `None` figure; no creation event occurs. -/
lemma run_missing_fig_colorbar {S : Type} (env : Env S) (a : Args S) (x : AxH)
    (hf : a.fig = none) (ha : a.ax = some x)
    (hp : a.projection = "2d" ∨ a.projection = "3d") (hcb : a.colorbar = true) :
    (run env a).2 = Except.error (PlotError.attributeErrorNone UseSite.colorbarCall) ∧
    (run env a).1.all (fun e => !(isCreation e)) = true := by
  rcases hp with hp | hp
  · have h : run env a =
        (REvent.contourf (xvecOf a.alpha_max) (yvecOf env a) (computedQ env a) 100
           (-qlimOf env a) (qlimOf env a) (a.cmap.getD "RdBu") ::
          (ylimEvents env a ++ [REvent.setXlabel, REvent.setYlabel]),
         Except.error (PlotError.attributeErrorNone UseSite.colorbarCall)) := by
      unfold run
      simp [hf, ha, hp, hcb, ylimEvents]
    rw [h]
    refine ⟨rfl, ?_⟩
    cases hq : q0Of env a <;>
      simp [ylimEvents, hq, isCreation, List.all_eq_true]
  · have h : run env a =
        (REvent.plotSurface (xvecOf a.alpha_max) (xvecOf a.alpha_max) (q0Of env a) 5 5
           (1 / 2) (-qlimOf env a) (qlimOf env a) (a.cmap.getD "RdBu") ::
          (ylimEvents env a ++ [REvent.setXlabel, REvent.setYlabel]),
         Except.error (PlotError.attributeErrorNone UseSite.colorbarCall)) := by
      unfold run
      simp [hf, ha, hp, hcb, ylimEvents]
    rw [h]
    refine ⟨rfl, ?_⟩
    cases hq : q0Of env a <;>
      simp [ylimEvents, hq, isCreation, List.all_eq_true]

/-- A creation event carries no color normalization. -/
lemma normOf_of_isCreation {e : REvent} (h : isCreation e = true) : normOf e = none := by
  cases e <;> simp_all [isCreation, normOf]

/-- A creation event is not a y-limit change. -/
lemma isSetYlim_of_isCreation {e : REvent} (h : isCreation e = true) :
    isSetYlim e = false := by
  cases e <;> simp_all [isCreation, isSetYlim]

/-- Every successful run's trace is a (possibly empty) block of creation
events, then one draw event carrying the `[-qlim, qlim]` normalization,
then the y-limit events, the two labels, the colorbar events and the
title. -/
lemma run_ok_trace {S : Type} (env : Env S) (a : Args S) (ev : List REvent)
    (r : Option FigH × Option AxH) (h : run env a = (ev, Except.ok r)) :
    ∃ pre dv,
      ev = pre ++ dv ::
        (ylimEvents env a ++ REvent.setXlabel :: REvent.setYlabel ::
          (cbarEvents env a ++ [REvent.setTitle "Husimi Q-function"])) ∧
      (∀ x ∈ pre, isCreation x = true) ∧
      normOf dv = some (-qlimOf env a, qlimOf env a) ∧
      isSetYlim dv = false := by
  by_cases h2 : a.projection = "2d"
  · cases hfig : a.fig with
    | none =>
      cases hax : a.ax with
      | none =>
        rw [run_2d_fresh env a hfig hax h2, Prod.mk.injEq] at h
        obtain ⟨h1, -⟩ := h
        subst h1
        refine ⟨[REvent.createFig a.figsize, REvent.createAx2d],
          REvent.contourf (xvecOf a.alpha_max) (yvecOf env a) (computedQ env a) 100
            (-qlimOf env a) (qlimOf env a) (a.cmap.getD "RdBu"), ?_, ?_, ?_, ?_⟩ <;>
          simp [isCreation, normOf, isSetYlim]
      | some x =>
        cases hcb : a.colorbar with
        | false =>
          rw [run_2d_nofig env a x hfig hax h2 hcb, Prod.mk.injEq] at h
          obtain ⟨h1, -⟩ := h
          subst h1
          refine ⟨[],
            REvent.contourf (xvecOf a.alpha_max) (yvecOf env a) (computedQ env a) 100
              (-qlimOf env a) (qlimOf env a) (a.cmap.getD "RdBu"), ?_, ?_, ?_, ?_⟩ <;>
            simp [isCreation, normOf, isSetYlim]
        | true =>
          have h' := (run_missing_fig_colorbar env a x hfig hax (Or.inl h2) hcb).1
          rw [h] at h'
          exact absurd h' (by simp)
    | some f =>
      cases hax : a.ax with
      | none =>
        rw [run_missing_ax env a f hfig hax (Or.inl h2), Prod.mk.injEq] at h
        exact absurd h.2 (by simp)
      | some x =>
        rw [run_2d_supplied env a f x hfig hax h2, Prod.mk.injEq] at h
        obtain ⟨h1, -⟩ := h
        subst h1
        refine ⟨[],
          REvent.contourf (xvecOf a.alpha_max) (yvecOf env a) (computedQ env a) 100
            (-qlimOf env a) (qlimOf env a) (a.cmap.getD "RdBu"), ?_, ?_, ?_, ?_⟩ <;>
          simp [isCreation, normOf, isSetYlim]
  · by_cases h3 : a.projection = "3d"
    · cases hfig : a.fig with
      | none =>
        cases hax : a.ax with
        | none =>
          rw [run_3d_fresh env a hfig hax h3, Prod.mk.injEq] at h
          obtain ⟨h1, -⟩ := h
          subst h1
          refine ⟨[REvent.createFig a.figsize, REvent.createAx3d],
            REvent.plotSurface (xvecOf a.alpha_max) (xvecOf a.alpha_max) (q0Of env a) 5 5
              (1 / 2) (-qlimOf env a) (qlimOf env a) (a.cmap.getD "RdBu"), ?_, ?_, ?_, ?_⟩ <;>
            simp [isCreation, normOf, isSetYlim]
        | some x =>
          cases hcb : a.colorbar with
          | false =>
            rw [run_3d_nofig env a x hfig hax h3 hcb, Prod.mk.injEq] at h
            obtain ⟨h1, -⟩ := h
            subst h1
            refine ⟨[],
              REvent.plotSurface (xvecOf a.alpha_max) (xvecOf a.alpha_max) (q0Of env a) 5 5
                (1 / 2) (-qlimOf env a) (qlimOf env a) (a.cmap.getD "RdBu"), ?_, ?_, ?_, ?_⟩ <;>
              simp [isCreation, normOf, isSetYlim]
          | true =>
            have h' := (run_missing_fig_colorbar env a x hfig hax (Or.inr h3) hcb).1
            rw [h] at h'
            exact absurd h' (by simp)
      | some f =>
        cases hax : a.ax with
        | none =>
          rw [run_missing_ax env a f hfig hax (Or.inr h3), Prod.mk.injEq] at h
          exact absurd h.2 (by simp)
        | some x =>
          rw [run_3d_supplied env a f x hfig hax h3, Prod.mk.injEq] at h
          obtain ⟨h1, -⟩ := h
          subst h1
          refine ⟨[],
            REvent.plotSurface (xvecOf a.alpha_max) (xvecOf a.alpha_max) (q0Of env a) 5 5
              (1 / 2) (-qlimOf env a) (qlimOf env a) (a.cmap.getD "RdBu"), ?_, ?_, ?_, ?_⟩ <;>
            simp [isCreation, normOf, isSetYlim]
    · by_cases hb : (a.fig.isNone && a.ax.isNone) = true
      · rw [run_invalid_fresh env a (Option.isNone_iff_eq_none.mp (Bool.and_elim_left hb))
            (Option.isNone_iff_eq_none.mp (Bool.and_elim_right hb)) h2 h3,
          Prod.mk.injEq] at h
        exact absurd h.2 (by simp)
      · rw [run_invalid_supplied env a (Bool.not_eq_true _ ▸ hb) h2 h3, Prod.mk.injEq] at h
        exact absurd h.2 (by simp)

/-- The y-limit events contain no contour draw. -/
lemma ylim_no_contour {S : Type} (env : Env S) (a : Args S) :
    (ylimEvents env a).filterMap contourArgsOf = [] := by
  unfold ylimEvents
  cases q0Of env a <;> simp [contourArgsOf]

/-- The colorbar events contain no contour draw. -/
lemma cbar_no_contour {S : Type} (env : Env S) (a : Args S) :
    (cbarEvents env a).filterMap contourArgsOf = [] := by
  unfold cbarEvents
  cases hcb : a.colorbar <;> simp [contourArgsOf]

/-- The y-limit events carry no draw normalization. -/
lemma ylim_no_drawNorm {S : Type} (env : Env S) (a : Args S) :
    (ylimEvents env a).filterMap drawNormOf = [] := by
  unfold ylimEvents
  cases q0Of env a <;> simp [drawNormOf]

/-- The colorbar events carry no draw normalization. -/
lemma cbar_no_drawNorm {S : Type} (env : Env S) (a : Args S) :
    (cbarEvents env a).filterMap drawNormOf = [] := by
  unfold cbarEvents
  cases hcb : a.colorbar <;> simp [drawNormOf]

/-- The y-limit events contain no surface draw. -/
lemma ylim_no_surf {S : Type} (env : Env S) (a : Args S) :
    (ylimEvents env a).filterMap surfDataOf = [] := by
  unfold ylimEvents
  cases q0Of env a <;> simp [surfDataOf]

/-- The colorbar events contain no surface draw. -/
lemma cbar_no_surf {S : Type} (env : Env S) (a : Args S) :
    (cbarEvents env a).filterMap surfDataOf = [] := by
  unfold cbarEvents
  cases hcb : a.colorbar <;> simp [surfDataOf]

/-- The sampling grid always has exactly 200 points. -/
lemma xvec_length (amax : ℚ) : (xvecOf amax).length = 200 := by
  rw [xvecOf, linspace, List.length_map, List.length_range]

/-- Closed form of the grid points. -/
lemma xvec_get (amax : ℚ) (i : ℕ) (h : i < (xvecOf amax).length) :
    (xvecOf amax).get ⟨i, h⟩ = -amax + 2 * amax * i / 199 := by
  simp only [xvecOf, linspace, List.get_eq_getElem, List.getElem_map, List.getElem_range]
  norm_num
  ring

/-- The colorbar events contain no y-limit change. -/
lemma cbar_no_setYlim {S : Type} (env : Env S) (a : Args S) :
    (cbarEvents env a).any isSetYlim = false := by
  unfold cbarEvents
  cases hcb : a.colorbar <;> simp [isSetYlim]

/-- No y-limit change lives among the colorbar events. -/
lemma not_mem_cbar_setYlim {S : Type} (env : Env S) (a : Args S) (lo hi : ℚ) :
    REvent.setYlim lo hi ∉ cbarEvents env a := by
  unfold cbarEvents
  cases hcb : a.colorbar <;> simp

/-- `q0Of` depends only on the state and on `alpha_max`. -/
lemma q0Of_congr {S : Type} (env : Env S) (a₁ a₂ : Args S)
    (hr : a₁.rho = a₂.rho) (hm : a₁.alpha_max = a₂.alpha_max) :
    q0Of env a₁ = q0Of env a₂ := by
  unfold q0Of normState
  rw [hr, hm]

/-- Every norm-carrying event in the post-draw tail of a successful trace
(the y-limit fix, labels, colorbar, title) carries the `[-qlim, qlim]`
bounds — only the colorbar event qualifies. -/
lemma normOf_tail {S : Type} (env : Env S) (a : Args S) (e : REvent)
    (he : e ∈ ylimEvents env a ++ REvent.setXlabel :: REvent.setYlabel ::
      (cbarEvents env a ++ [REvent.setTitle "Husimi Q-function"]))
    (lo hi : ℚ) (hn : normOf e = some (lo, hi)) :
    lo = -qlimOf env a ∧ hi = qlimOf env a := by
  cases hq : q0Of env a with
  | withGrid q y =>
    cases hcb : a.colorbar with
    | true =>
      simp [ylimEvents, cbarEvents, hq, hcb] at he
      rcases he with rfl | rfl | rfl | rfl | rfl <;> simp [normOf] at hn
      exact ⟨hn.1.symm, hn.2.symm⟩
    | false =>
      simp [ylimEvents, cbarEvents, hq, hcb] at he
      rcases he with rfl | rfl | rfl | rfl <;> simp [normOf] at hn
  | single q =>
    cases hcb : a.colorbar with
    | true =>
      simp [ylimEvents, cbarEvents, hq, hcb] at he
      rcases he with rfl | rfl | rfl | rfl <;> simp [normOf] at hn
      exact ⟨hn.1.symm, hn.2.symm⟩
    | false =>
      simp [ylimEvents, cbarEvents, hq, hcb] at he
      rcases he with rfl | rfl | rfl <;> simp [normOf] at hn

/-! ### Claims -/

/-- C1 (counterexample): the claim says an invalid projection value is
rejected "at the canvas-creation check ... regardless of whether
canvas/axes were supplied".  At the concrete input
`projection = "1d"` with both canvas and axes supplied by the caller, the
creation branch (and its check) is skipped entirely and the error is
raised only by the check at the point of drawing — not at the
canvas-creation check. -/
theorem C1_counterexample :
    run env0 argsBadBoth =
      ([], Except.error (PlotError.invalidProjection CheckSite.draw)) ∧
    CheckSite.draw ≠ CheckSite.creation :=
  ⟨run_invalid_supplied env0 argsBadBoth rfl (by decide) (by decide), by decide⟩

/-- C1 (amended): for every call with a projection value that is neither
`"2d"` nor `"3d"`, the call fails deterministically with an
`InvalidArgument` error before any plotting side effect occurs (the
emitted trace is empty): at the canvas-creation check when neither canvas
nor axes was supplied, and otherwise — the creation branch being skipped —
at the redundant check at the point of drawing. -/
theorem C1_theorem {S : Type} (env : Env S) (a : Args S)
    (h2 : a.projection ≠ "2d") (h3 : a.projection ≠ "3d") :
    (a.fig = none → a.ax = none →
      run env a = ([], Except.error (PlotError.invalidProjection CheckSite.creation))) ∧
    (a.fig ≠ none ∨ a.ax ≠ none →
      run env a = ([], Except.error (PlotError.invalidProjection CheckSite.draw))) := by
  constructor
  · intro hf ha
    exact run_invalid_fresh env a hf ha h2 h3
  · intro hor
    refine run_invalid_supplied env a ?_ h2 h3
    rcases hor with hne | hne
    · cases hfig : a.fig <;> simp_all
    · cases hax : a.ax <;> cases hfig : a.fig <;> simp_all

/-- C1 (witness): the amended claim at two concrete inputs — a fresh call
with `projection = "1d"` fails at the creation check, and the same value
with both handles supplied fails at the draw check. -/
theorem C1_witness :
    run env0 argsBadFresh =
      ([], Except.error (PlotError.invalidProjection CheckSite.creation)) ∧
    run env0 argsBadBoth =
      ([], Except.error (PlotError.invalidProjection CheckSite.draw)) :=
  ⟨(C1_theorem env0 argsBadFresh (by decide) (by decide)).1 rfl rfl,
   (C1_theorem env0 argsBadBoth (by decide) (by decide)).2 (Or.inl (by decide))⟩

/-- C2: for every call with an unrecognized projection value and any state
(and any handle configuration), the call raises the `InvalidArgument`
error and the emitted trace is empty — no drawn artifact (contour,
surface, labels, title, or colorbar) was added to any axes before the
error. -/
theorem C2_theorem {S : Type} (env : Env S) (a : Args S)
    (h2 : a.projection ≠ "2d") (h3 : a.projection ≠ "3d") :
    run env a = ([], Except.error (PlotError.invalidProjection
      (if a.fig.isNone && a.ax.isNone then CheckSite.creation else CheckSite.draw))) := by
  by_cases hb : (a.fig.isNone && a.ax.isNone) = true
  · rw [if_pos hb]
    exact run_invalid_fresh env a (Option.isNone_iff_eq_none.mp (Bool.and_elim_left hb))
      (Option.isNone_iff_eq_none.mp (Bool.and_elim_right hb)) h2 h3
  · rw [if_neg hb]
    exact run_invalid_supplied env a (Bool.not_eq_true _ ▸ hb) h2 h3

/-- C2 (witness): the empty-string projection on a fresh call raises the
error with an empty trace. -/
theorem C2_witness :
    run env0 argsBadEmpty =
      ([], Except.error (PlotError.invalidProjection CheckSite.creation)) :=
  C2_theorem env0 argsBadEmpty (by decide) (by decide)

/-- C10: when exactly one of canvas and axes is supplied, the creation
branch (which requires both to be absent) runs for neither, so the missing
handle stays `None` and the call fails at the point that handle is first
used — the draw call for a missing axes (with an empty trace: nothing was
created or drawn), the colorbar-attachment call for a missing canvas with
the legend requested (with a trace free of creation events) — with an
`AttributeError`-style failure, not an `InvalidArgument` error. -/
theorem C10_theorem {S : Type} (env : Env S) (a : Args S) :
    (∀ f, a.fig = some f → a.ax = none →
      a.projection = "2d" ∨ a.projection = "3d" →
      run env a = ([], Except.error (PlotError.attributeErrorNone UseSite.drawCall))) ∧
    (∀ x, a.ax = some x → a.fig = none →
      a.projection = "2d" ∨ a.projection = "3d" → a.colorbar = true →
      (run env a).2 = Except.error (PlotError.attributeErrorNone UseSite.colorbarCall) ∧
      (run env a).1.all (fun e => !(isCreation e)) = true) ∧
    (∀ s, (PlotError.attributeErrorNone UseSite.drawCall ≠ PlotError.invalidProjection s ∧
      PlotError.attributeErrorNone UseSite.colorbarCall ≠ PlotError.invalidProjection s)) :=
  ⟨fun f hf ha hp => run_missing_ax env a f hf ha hp,
   fun x hx hf hp hcb => run_missing_fig_colorbar env a x hf hx hp hcb,
   fun s => ⟨by simp, by simp⟩⟩

/-- C10 (witness): at concrete inputs — only the figure supplied: the call
fails at the draw call with nothing created or drawn; only the axes
supplied with the colorbar requested: the call fails at the
colorbar-attachment call after a trace containing no creation event. -/
theorem C10_witness :
    run env0 argsFigOnly =
      ([], Except.error (PlotError.attributeErrorNone UseSite.drawCall)) ∧
    (run env0 argsAxOnly).2 =
      Except.error (PlotError.attributeErrorNone UseSite.colorbarCall) ∧
    (run env0 argsAxOnly).1.all (fun e => !(isCreation e)) = true :=
  ⟨(C10_theorem env0 argsFigOnly).1 _ rfl rfl (Or.inl rfl),
   (C10_theorem env0 argsAxOnly).2.1 _ rfl rfl (Or.inl rfl) rfl⟩

/-- C3 (code bug): line 77 passes the RAW evaluator result `Q0` to
`plot_surface`, not the unpacked array `Q` from line 65.  At a concrete
`"3d"` call whose evaluator returns the `(array, alternate y-grid)` pair
`([[1]], [0])`, the data handed to the surface draw is that raw pair —
an object `matplotlib` cannot render as a 2D surface — and not the single
normalized array `[[1]]` that the claim (and the `"2d"` path, and the
color bound) use. -/
theorem C3_theorem :
    (run envC3 args3d).1.filterMap surfDataOf = [QRes.withGrid [[1]] [0]] ∧
    computedQ envC3 args3d = [[1]] ∧
    QRes.withGrid [[1]] [0] ≠ QRes.single [[1]] := by
  refine ⟨?_, rfl, by decide⟩
  rw [run_3d_fresh envC3 args3d rfl rfl rfl]
  simp [surfDataOf, ylim_no_surf, cbar_no_surf]
  rfl

/-- C4: in every successful call, the color-scale bound is the maximum
absolute value of the computed Q-function array, and every
norm-carrying event of the trace — the contour or surface draw in either
projection mode, and the colorbar legend when requested — carries exactly
the symmetric bounds `[-qlim, qlim]`, never a recomputed value. -/
theorem C4_theorem {S : Type} (env : Env S) (a : Args S) (ev : List REvent)
    (r : Option FigH × Option AxH) (h : run env a = (ev, Except.ok r)) :
    qlimOf env a = absMax (computedQ env a) ∧
    ∀ e ∈ ev, ∀ lo hi, normOf e = some (lo, hi) →
      lo = -qlimOf env a ∧ hi = qlimOf env a := by
  obtain ⟨pre, dv, hev, hpre, hnorm, -⟩ := run_ok_trace env a ev r h
  subst hev
  refine ⟨rfl, ?_⟩
  intro e he lo hi hn
  simp [List.mem_append, List.mem_cons] at he
  rcases he with he | rfl | he
  · rw [normOf_of_isCreation (hpre e he)] at hn
    cases hn
  · rw [hnorm] at hn
    simp at hn
    exact ⟨hn.1.symm, hn.2.symm⟩
  · exact normOf_tail env a e (by simpa [List.mem_append, List.mem_cons] using he) lo hi hn

/-- C4 (witness): the default call on the trivial environment succeeds;
instantiating the theorem at its contour event (whose bound is `0` for the
all-zero array) discharges the hypotheses concretely. -/
theorem C4_witness :
    qlimOf env0 args0 = absMax (computedQ env0 args0) ∧
    ((0 : ℚ) = -qlimOf env0 args0 ∧ (0 : ℚ) = qlimOf env0 args0) := by
  have h := run_2d_fresh env0 args0 rfl rfl rfl
  have hc := C4_theorem env0 args0 _ _ h
  refine ⟨hc.1, ?_⟩
  refine hc.2
    (REvent.contourf (xvecOf args0.alpha_max) (yvecOf env0 args0) (computedQ env0 args0)
      100 (-qlimOf env0 args0) (qlimOf env0 args0) (args0.cmap.getD "RdBu"))
    (List.mem_cons_of_mem _ (List.mem_cons_of_mem _ (List.mem_cons_self _ _))) 0 0 ?_
  decide

/-- C5: when both canvas and axes are supplied, a successful call returns
exactly the supplied objects (nothing new is created); when neither is
supplied, both are created fresh according to the size option — a plain 2D
axes for `"2d"`, a 3D-projected axes for `"3d"` — and returned. -/
theorem C5_theorem {S : Type} (env : Env S) (a : Args S) :
    (∀ f x ev r, a.fig = some f → a.ax = some x →
      run env a = (ev, Except.ok r) → r = (some f, some x)) ∧
    (∀ f x, a.fig = some f → a.ax = some x →
      (run env a).1.all (fun e => !(isCreation e)) = true) ∧
    (a.fig = none → a.ax = none → a.projection = "2d" →
      (run env a).2 =
        Except.ok (some (FigH.created a.figsize), some (AxH.created2d a.figsize))) ∧
    (a.fig = none → a.ax = none → a.projection = "3d" →
      (run env a).2 =
        Except.ok (some (FigH.created a.figsize), some (AxH.created3d a.figsize))) := by
  refine ⟨?_, ?_, ?_, ?_⟩
  · intro f x ev r hf hx h
    by_cases h2 : a.projection = "2d"
    · rw [run_2d_supplied env a f x hf hx h2, Prod.mk.injEq] at h
      exact (Except.ok.inj h.2).symm
    · by_cases h3 : a.projection = "3d"
      · rw [run_3d_supplied env a f x hf hx h3, Prod.mk.injEq] at h
        exact (Except.ok.inj h.2).symm
      · rw [run_invalid_supplied env a (by simp [hf]) h2 h3, Prod.mk.injEq] at h
        exact absurd h.2 (by simp)
  · intro f x hf hx
    by_cases h2 : a.projection = "2d"
    · rw [run_2d_supplied env a f x hf hx h2]
      cases hq : q0Of env a <;> cases hcb : a.colorbar <;>
        simp [ylimEvents, cbarEvents, hq, hcb, isCreation, List.all_eq_true]
    · by_cases h3 : a.projection = "3d"
      · rw [run_3d_supplied env a f x hf hx h3]
        cases hq : q0Of env a <;> cases hcb : a.colorbar <;>
          simp [ylimEvents, cbarEvents, hq, hcb, isCreation, List.all_eq_true]
      · rw [run_invalid_supplied env a (by simp [hf]) h2 h3]
        simp
  · intro hf hx h2
    rw [run_2d_fresh env a hf hx h2]
  · intro hf hx h3
    rw [run_3d_fresh env a hf hx h3]

/-- C5 (witness): at concrete inputs — both handles supplied: the call
returns exactly those handles; no handles supplied: fresh handles are
created per the figsize, 2D and 3D respectively. -/
theorem C5_witness :
    (run env0 argsBoth).2 =
      Except.ok (some (FigH.supplied 0), some (AxH.supplied 1)) ∧
    (run env0 argsBoth).1.all (fun e => !(isCreation e)) = true ∧
    (run env0 args0).2 =
      Except.ok (some (FigH.created (6, 6)), some (AxH.created2d (6, 6))) ∧
    (run env0 args3d).2 =
      Except.ok (some (FigH.created (6, 6)), some (AxH.created3d (6, 6))) := by
  have hrun := run_2d_supplied env0 argsBoth (FigH.supplied 0) (AxH.supplied 1) rfl rfl rfl
  have hid := (C5_theorem env0 argsBoth).1 (FigH.supplied 0) (AxH.supplied 1) _ _ rfl rfl hrun
  exact ⟨by rw [hrun, hid], (C5_theorem env0 argsBoth).2.1 _ _ rfl rfl,
    (C5_theorem env0 args0).2.2.1 rfl rfl rfl,
    (C5_theorem env0 args3d).2.2.2 rfl rfl rfl⟩

/-- C6: for every call with a positive `alpha_max`, the evaluator is
invoked with the same grid for both the real and imaginary axes, and that
grid consists of 200 points, the `i`-th being
`-alpha_max + 2 * alpha_max * i / 199` — i.e. 200 evenly spaced points
(constant step `2 * alpha_max / 199`) running from `-alpha_max` to
`alpha_max`. -/
theorem C6_theorem {S : Type} (env : Env S) (a : Args S) (hpos : 0 < a.alpha_max) :
    q0Of env a =
      env.qfunc (normState env a.rho) (xvecOf a.alpha_max) (xvecOf a.alpha_max) ∧
    (xvecOf a.alpha_max).length = 200 ∧
    (∀ i (h : i < (xvecOf a.alpha_max).length),
      (xvecOf a.alpha_max).get ⟨i, h⟩ = -a.alpha_max + 2 * a.alpha_max * i / 199) ∧
    (xvecOf a.alpha_max).get ⟨0, by rw [xvec_length]; norm_num⟩ = -a.alpha_max ∧
    (xvecOf a.alpha_max).get ⟨199, by rw [xvec_length]; norm_num⟩ = a.alpha_max ∧
    (∀ i (h : i + 1 < (xvecOf a.alpha_max).length),
      (xvecOf a.alpha_max).get ⟨i + 1, h⟩ -
        (xvecOf a.alpha_max).get ⟨i, Nat.lt_of_succ_lt h⟩ = 2 * a.alpha_max / 199) := by
  refine ⟨rfl, xvec_length a.alpha_max, xvec_get a.alpha_max, ?_, ?_, ?_⟩
  · rw [xvec_get a.alpha_max 0]
    norm_num
  · rw [xvec_get a.alpha_max 199]
    norm_num
    ring
  · intro i h
    rw [xvec_get a.alpha_max (i + 1) h, xvec_get a.alpha_max i (Nat.lt_of_succ_lt h)]
    push_cast
    ring

/-- C6 (witness): the theorem at the default `alpha_max = 7.5` (positive):
the evaluator receives twice the 200-point grid. -/
theorem C6_witness :
    q0Of env0 args0 =
      env0.qfunc (normState env0 args0.rho) (xvecOf args0.alpha_max)
        (xvecOf args0.alpha_max) ∧
    (xvecOf args0.alpha_max).length = 200 :=
  ⟨(C6_theorem env0 args0 (by norm_num [args0])).1,
   (C6_theorem env0 args0 (by norm_num [args0])).2.1⟩

/-- C7: in a fresh `"2d"` call, the contour draw proceeds with exactly the
evaluator's unpacking — when the evaluator returned a `(array, y-grid)`
pair, the drawn data is that array over that y-grid; otherwise the drawn
data is the returned array over the original x-grid. -/
theorem C7_theorem {S : Type} (env : Env S) (a : Args S)
    (hf : a.fig = none) (ha : a.ax = none) (hp : a.projection = "2d") :
    (∀ q y, q0Of env a = QRes.withGrid q y →
      (run env a).1.filterMap contourArgsOf = [(y, q)]) ∧
    (∀ q, q0Of env a = QRes.single q →
      (run env a).1.filterMap contourArgsOf = [(xvecOf a.alpha_max, q)]) := by
  have h := run_2d_fresh env a hf ha hp
  constructor
  · intro q y hq
    rw [h]
    simp [List.filterMap_cons, List.filterMap_append, contourArgsOf,
      ylim_no_contour, cbar_no_contour, yvecOf, computedQ, hq]
  · intro q hq
    rw [h]
    simp [List.filterMap_cons, List.filterMap_append, contourArgsOf,
      ylim_no_contour, cbar_no_contour, yvecOf, computedQ, hq]

/-- C7 (witness): concretely, a pair-returning evaluator yields the drawn
pair `([2], [[1]])`, and a single-array evaluator yields the x-grid and
the array. -/
theorem C7_witness :
    (run envT args0).1.filterMap contourArgsOf = [([2], [[1]])] ∧
    (run env0 args0).1.filterMap contourArgsOf = [(xvecOf args0.alpha_max, [[0]])] :=
  ⟨(C7_theorem envT args0 rfl rfl rfl).1 [[1]] [2] rfl,
   (C7_theorem env0 args0 rfl rfl rfl).2 [[0]] rfl⟩

/-- C8 (counterexample): the claim says the y-limits are set "exactly when
the computed y-grid differs from the x-grid" and left untouched "when the
y-grid is the same as the x-grid".  With an evaluator returning a pair
whose alternate y-grid is VALUE-equal to the x-grid (but, being freshly
constructed, a distinct object), the computed y-grid equals the x-grid and
the code still sets the y-limits: line 82 compares object identity
(`is not`), not values. -/
theorem C8_counterexample :
    yvecOf env8 args0 = xvecOf args0.alpha_max ∧
    (run env8 args0).1.any isSetYlim = true :=
  ⟨rfl, rfl⟩

/-- C8 (amended): in every successful call, the y-axis display limits are
set to the min/max of the x-grid exactly when the evaluator returned an
`(array, alternate y-grid)` pair — the alternate grid then being a
distinct object from the x-grid, even if value-equal to it — and are left
untouched when the evaluator returned a single array (the y-grid then
being the x-grid itself). -/
theorem C8_theorem {S : Type} (env : Env S) (a : Args S) (ev : List REvent)
    (r : Option FigH × Option AxH) (h : run env a = (ev, Except.ok r)) :
    ((ev.any isSetYlim = true) ↔ ∃ q y, q0Of env a = QRes.withGrid q y) ∧
    (∀ lo hi, REvent.setYlim lo hi ∈ ev →
      lo = listMin (xvecOf a.alpha_max) ∧ hi = listMax (xvecOf a.alpha_max)) := by
  obtain ⟨pre, dv, hev, hpre, -, hsl⟩ := run_ok_trace env a ev r h
  subst hev
  have hpre' : pre.any isSetYlim = false := by
    rw [List.any_eq_false]
    intro x hx
    simp [isSetYlim_of_isCreation (hpre x hx)]
  constructor
  · have hxl : isSetYlim REvent.setXlabel = false := rfl
    have hyl : isSetYlim REvent.setYlabel = false := rfl
    have htl : isSetYlim (REvent.setTitle "Husimi Q-function") = false := rfl
    simp only [List.any_append, List.any_cons, hpre', hsl, cbar_no_setYlim,
      hxl, hyl, htl, Bool.false_or, Bool.or_false]
    cases hq : q0Of env a with
    | withGrid q y =>
      simp only [ylimEvents, hq, List.any_cons, List.any_nil, Bool.or_false]
      have : isSetYlim (REvent.setYlim (listMin (xvecOf a.alpha_max))
          (listMax (xvecOf a.alpha_max))) = true := rfl
      rw [this]
      simp only [true_iff]
      exact ⟨q, y, rfl⟩
    | single q =>
      simp [ylimEvents, hq]
  · intro lo hi hm
    simp only [List.mem_append, List.mem_cons] at hm
    rcases hm with hm | hm | hm
    · exact absurd (hpre _ hm) (by simp [isCreation])
    · rw [← hm] at hsl
      exact absurd hsl (by simp [isSetYlim])
    · cases hq : q0Of env a with
      | withGrid q y =>
        simp only [ylimEvents, hq, List.mem_append, List.mem_cons,
          List.not_mem_nil, or_false, false_or] at hm
        rcases hm with hm | hm | hm | hm | hm
        · exact ⟨(REvent.setYlim.inj hm).1, (REvent.setYlim.inj hm).2⟩
        · simp at hm
        · simp at hm
        · exact absurd hm (not_mem_cbar_setYlim env a lo hi)
        · simp at hm
      | single q =>
        simp only [ylimEvents, hq, List.nil_append, List.mem_append, List.mem_cons,
          List.not_mem_nil, or_false, false_or] at hm
        rcases hm with hm | hm | hm | hm
        · simp at hm
        · simp at hm
        · exact absurd hm (not_mem_cbar_setYlim env a lo hi)
        · simp at hm

/-- C8 (witness): the amended claim at a concrete pair-returning
evaluator — a y-limit event appears in the successful trace. -/
theorem C8_witness : (run envT args0).1.any isSetYlim = true := by
  have h := run_2d_fresh envT args0 rfl rfl rfl
  exact (C8_theorem envT args0 _ _ h).1.mpr ⟨[[1]], [2], rfl⟩

/-- C9: the Q-function array and the normalization bound computed by a
call depend only on the state and on `alpha_max` — for EVERY option set
(any projection, figsize, color map, colorbar, handles), two calls with
the same state and span compute the same array and the same bound.
Moreover, for fresh-handle calls with valid (possibly different)
projections the draw events carry the same normalization, two `"2d"`
calls draw the same data over the same y-grid, and two `"3d"` calls pass
the same raw data to the surface draw. -/
theorem C9_theorem {S : Type} (env : Env S) (a₁ a₂ : Args S)
    (hr : a₁.rho = a₂.rho) (hm : a₁.alpha_max = a₂.alpha_max) :
    computedQ env a₁ = computedQ env a₂ ∧
    qlimOf env a₁ = qlimOf env a₂ ∧
    (a₁.fig = none → a₁.ax = none → a₂.fig = none → a₂.ax = none →
      a₁.projection = "2d" ∨ a₁.projection = "3d" →
      a₂.projection = "2d" ∨ a₂.projection = "3d" →
      (run env a₁).1.filterMap drawNormOf = (run env a₂).1.filterMap drawNormOf) ∧
    (a₁.fig = none → a₁.ax = none → a₂.fig = none → a₂.ax = none →
      a₁.projection = "2d" → a₂.projection = "2d" →
      (run env a₁).1.filterMap contourArgsOf =
        (run env a₂).1.filterMap contourArgsOf) ∧
    (a₁.fig = none → a₁.ax = none → a₂.fig = none → a₂.ax = none →
      a₁.projection = "3d" → a₂.projection = "3d" →
      (run env a₁).1.filterMap surfDataOf = (run env a₂).1.filterMap surfDataOf) := by
  have hq := q0Of_congr env a₁ a₂ hr hm
  have hQ : computedQ env a₁ = computedQ env a₂ := by
    unfold computedQ
    rw [hq]
  have hy : yvecOf env a₁ = yvecOf env a₂ := by
    unfold yvecOf
    rw [hq, hm]
  have hl : qlimOf env a₁ = qlimOf env a₂ := by
    unfold qlimOf
    rw [hQ]
  have hnorms : ∀ (a : Args S), a.fig = none → a.ax = none →
      a.projection = "2d" ∨ a.projection = "3d" →
      (run env a).1.filterMap drawNormOf = [(-qlimOf env a, qlimOf env a)] := by
    intro a hf ha hp
    rcases hp with hp | hp
    · rw [run_2d_fresh env a hf ha hp]
      simp only [List.filterMap_cons, List.filterMap_append, drawNormOf,
        ylim_no_drawNorm, cbar_no_drawNorm]
      simp
    · rw [run_3d_fresh env a hf ha hp]
      simp only [List.filterMap_cons, List.filterMap_append, drawNormOf,
        ylim_no_drawNorm, cbar_no_drawNorm]
      simp
  refine ⟨hQ, hl, ?_, ?_, ?_⟩
  · intro hf₁ ha₁ hf₂ ha₂ hp₁ hp₂
    rw [hnorms a₁ hf₁ ha₁ hp₁, hnorms a₂ hf₂ ha₂ hp₂, hl]
  · intro hf₁ ha₁ hf₂ ha₂ hp₁ hp₂
    rw [run_2d_fresh env a₁ hf₁ ha₁ hp₁, run_2d_fresh env a₂ hf₂ ha₂ hp₂]
    simp only [List.filterMap_cons, List.filterMap_append, contourArgsOf,
      ylim_no_contour, cbar_no_contour]
    simp [hQ, hy]
  · intro hf₁ ha₁ hf₂ ha₂ hp₁ hp₂
    rw [run_3d_fresh env a₁ hf₁ ha₁ hp₁, run_3d_fresh env a₂ hf₂ ha₂ hp₂]
    simp only [List.filterMap_cons, List.filterMap_append, surfDataOf,
      ylim_no_surf, cbar_no_surf]
    simp [hq]

/-- C9 (witness): the theorem at concrete call pairs differing in figsize,
color map and colorbar — a `"2d"` pair, a `"3d"` pair, and a mixed
`"2d"`/`"3d"` pair sharing the same drawn normalization. -/
theorem C9_witness :
    computedQ env0 args0 = computedQ env0 args9 ∧
    qlimOf env0 args0 = qlimOf env0 args9 ∧
    computedQ env0 args3d = computedQ env0 args9d ∧
    qlimOf env0 args3d = qlimOf env0 args9d ∧
    (run env0 args0).1.filterMap drawNormOf =
      (run env0 args3d).1.filterMap drawNormOf ∧
    (run env0 args0).1.filterMap contourArgsOf =
      (run env0 args9).1.filterMap contourArgsOf ∧
    (run env0 args3d).1.filterMap surfDataOf =
      (run env0 args9d).1.filterMap surfDataOf := by
  have h2 := C9_theorem env0 args0 args9 rfl rfl
  have h3 := C9_theorem env0 args3d args9d rfl rfl
  have hx := C9_theorem env0 args0 args3d rfl rfl
  exact ⟨h2.1, h2.2.1, h3.1, h3.2.1,
    hx.2.2.1 rfl rfl rfl rfl (Or.inl rfl) (Or.inr rfl),
    h2.2.2.2.1 rfl rfl rfl rfl rfl rfl,
    h3.2.2.2.2 rfl rfl rfl rfl rfl rfl⟩

end HusimiQ
